import Mathlib

/-!
Shallow embedding of `src/run_model.py`: device selection, artifact loading,
LLM engine construction, global settings registration, the generation
invoker, and the module-level initialization pipeline.

Exceptions raised by the Python runtime are modelled with `Except String`;
dictionaries are modelled as association lists; the process-wide
`llama_index` `Settings` singleton and the module globals are modelled as an
explicit state record that is threaded through the stateful operations.
-/

namespace RunModel

/-- The compute backends `torch.device` can name here: `"cuda"`, `"mps"`, `"cpu"`. -/
inductive Device where
  | cuda
  | mps
  | cpu
deriving DecidableEq, Repr

/-- The host environment as `torch` reports it: `torch.cuda.is_available()`
and `torch.backends.mps.is_available()`. -/
structure Env where
  cuda_is_available : Bool
  mps_is_available : Bool
deriving DecidableEq, Repr

/-- `get_device` (src/run_model.py lines 16-21): CUDA if available, else MPS
if available, else CPU. -/
def get_device (env : Env) : Device :=
  if env.cuda_is_available then Device.cuda
  else if env.mps_is_available then Device.mps
  else Device.cpu

/-- The two torch dtypes the loader chooses between. -/
inductive Dtype where
  | float16
  | float32
deriving DecidableEq, Repr

/-- Opaque deserialized vector index (`pickle.load` of `index.pkl`). -/
structure Index where
  tag : Nat
deriving DecidableEq, Repr

/-- Opaque deserialized embedding model (`pickle.load` of
`embedding_model_cpu.pkl`). -/
structure EmbedModel where
  tag : Nat
deriving DecidableEq, Repr

/-- Python text in the generation path, modelled as an explicit character
sequence. -/
abbrev Str := List Char

/-- Python's `str.strip()`: remove leading and trailing whitespace. -/
def pyStrip (s : Str) : Str :=
  (((s.dropWhile Char.isWhitespace).reverse).dropWhile Char.isWhitespace).reverse

/-- A tokenizer as `AutoTokenizer.from_pretrained` yields it: pad/eos tokens
(each possibly `None`), the eos token id, the tokenization call
(`tokenizer(prompt, return_tensors="pt", padding=True, truncation=True)`,
returning the `input_ids` row, possibly raising), and `tokenizer.decode`
(token span, `skip_special_tokens` flag, possibly raising). -/
structure Tokenizer where
  pad_token : Option String
  eos_token : Option String
  eos_token_id : Option Nat
  tokenize : Str → Except String (List Nat)
  decode : List Nat → Bool → Except String Str

/-- A causal-LM artifact on disk: its `generate` behaviour (input ids,
`max_new_tokens`, `pad_token_id` → full output row `output[0]`, possibly
raising) and the training-mode flag it carries when instantiated. -/
structure ModelArtifact where
  gen : List Nat → Nat → Option Nat → Except String (List Nat)
  training : Bool

/-- A live model: dtype chosen at load, resident device, training-mode flag,
and the `generate` behaviour. -/
structure Model where
  dtype : Dtype
  device : Device
  training : Bool
  gen : List Nat → Nat → Option Nat → Except String (List Nat)

/-- `AutoModelForCausalLM.from_pretrained(MODEL_PATH, torch_dtype=...)`:
instantiates the artifact at the requested dtype, initially CPU-resident,
keeping the artifact's training-mode flag. -/
def from_pretrained_model (art : ModelArtifact) (torch_dtype : Dtype) : Model :=
  { dtype := torch_dtype
  , device := Device.cpu
  , training := art.training
  , gen := art.gen }

/-- `model.to(DEVICE)`. -/
def Model.to_device (m : Model) (d : Device) : Model :=
  { m with device := d }

/-- `model.eval()`: switch into inference (non-training) mode. -/
def Model.eval (m : Model) : Model :=
  { m with training := false }

/-- `load_model_and_tokenizer` (lines 62-77), pure core over the two
artifacts: fix the pad token when absent, instantiate the model at
`float16` off-CPU and `float32` on CPU, move it to the device, set eval
mode. -/
def load_model_and_tokenizer (device : Device) (tokArt : Tokenizer)
    (modArt : ModelArtifact) : Model × Tokenizer :=
  let tokenizer :=
    if tokArt.pad_token = none then { tokArt with pad_token := tokArt.eos_token }
    else tokArt
  let model := from_pretrained_model modArt
    (if device ≠ Device.cpu then Dtype.float16 else Dtype.float32)
  let model := model.to_device device
  let model := model.eval
  (model, tokenizer)

/-- Opaque `generate_kwargs` object from the config JSON. -/
structure GenerateKwargs where
  tag : Nat
deriving DecidableEq, Repr

/-- The generation-config JSON document as parsed: each key the code later
reads may be present or absent. -/
structure LLMConfigDoc where
  context_window : Option Nat
  max_new_tokens : Option Nat
  generate_kwargs : Option GenerateKwargs
  system_prompt : Option String
deriving DecidableEq, Repr

/-- The file at `LLM_CONFIG_PATH` as `json.load` sees it: either malformed
(parse raises) or a parsed document. -/
inductive JsonFile where
  | malformed (msg : String)
  | doc (d : LLMConfigDoc)
deriving DecidableEq, Repr

/-- `json.load(f)`: raises on malformed JSON, otherwise returns the parsed
document unchanged — no key validation of any kind. -/
def json_load (f : JsonFile) : Except String LLMConfigDoc :=
  match f with
  | JsonFile.malformed msg => Except.error msg
  | JsonFile.doc d => Except.ok d

/-- Python `config[key]` on an optional field: `KeyError` when absent. -/
def dict_get {α : Type} (v : Option α) (key : String) : Except String α :=
  match v with
  | none => Except.error ("KeyError: " ++ key)
  | some x => Except.ok x

/-- The `HuggingFaceLLM` engine built by `initialize_llm`: the config values
taken verbatim, the fixed query-wrapper template, and the shared model and
tokenizer handles. -/
structure Engine where
  context_window : Nat
  max_new_tokens : Nat
  generate_kwargs : GenerateKwargs
  system_prompt : String
  query_wrapper_prompt : String
  model : Model
  tokenizer : Tokenizer

/-- `initialize_llm` (lines 83-97), body: reads the four config keys (each
read raises `KeyError` when the key is absent) and constructs the engine. -/
def initialize_llm_core (cfg : LLMConfigDoc) (model : Model)
    (tokenizer : Tokenizer) : Except String Engine :=
  match dict_get cfg.context_window "context_window" with
  | Except.error e => Except.error e
  | Except.ok cw =>
    match dict_get cfg.max_new_tokens "max_new_tokens" with
    | Except.error e => Except.error e
    | Except.ok mnt =>
      match dict_get cfg.generate_kwargs "generate_kwargs" with
      | Except.error e => Except.error e
      | Except.ok gk =>
        match dict_get cfg.system_prompt "system_prompt" with
        | Except.error e => Except.error e
        | Except.ok sp =>
          Except.ok
            { context_window := cw
            , max_new_tokens := mnt
            , generate_kwargs := gk
            , system_prompt := sp
            , query_wrapper_prompt := "<|USER|>{query_str}<|ASSISTANT|>"
            , model := model
            , tokenizer := tokenizer }

/-- The `llama_index` `Settings` singleton slots touched by
`configure_settings`; `none` models a slot not yet published. -/
structure Settings where
  embed_model : Option EmbedModel
  llm : Option Engine
  chunk_size : Option Nat

/-- `configure_settings` (lines 100-104): publish the embedding model and
the engine as process-wide defaults and set the chunk size to 1024. -/
def configure_settings (embed_model : EmbedModel) (llm : Engine)
    (s : Settings) : Settings :=
  { s with
      embed_model := some embed_model
    , llm := some llm
    , chunk_size := some (1024 : Nat) }

/-- `generate_response` (lines 110-142): tokenize, generate bounded by
`max_tokens` with the eos token id as pad id, decode only the output span
beyond the input length with special tokens skipped, strip whitespace; any
exception in any step is caught, logged, and turned into `None`. -/
def generate_response (model : Model) (tokenizer : Tokenizer)
    (prompt : Str) (max_tokens : Nat := 50) : Option Str :=
  match tokenizer.tokenize prompt with
  | Except.error _ => none
  | Except.ok input_ids =>
    match model.gen input_ids max_tokens tokenizer.eos_token_id with
    | Except.error _ => none
    | Except.ok output0 =>
      match tokenizer.decode (output0.drop input_ids.length) true with
      | Except.error _ => none
      | Except.ok response => some (pyStrip response)

/-- Observability records (`log_time` calls) emitted by the pipeline steps,
each on success of its step, in the order the process emits them. -/
inductive Event where
  | resolveDevice (d : Device)
  | loadIndex
  | loadModelAndTokenizer
  | loadEmbeddingModel
  | loadLLMConfig
  | buildEngine
  | registerGlobals
deriving DecidableEq, Repr

/-- The artifact directory (`./models`) as the loaders see it: each binary
artifact either deserializes to a value or raises, and the config file is a
`JsonFile`. -/
structure Disk where
  index : Except String Index
  tokArt : Except String Tokenizer
  modArt : Except String ModelArtifact
  embed : Except String EmbedModel
  configFile : JsonFile

/-- `load_index` (lines 47-48) via `load_pickle`: the completion record is
emitted only after a successful `pickle.load`. -/
def load_index (disk : Disk) : Except String Index × List Event :=
  match disk.index with
  | Except.error e => (Except.error e, [])
  | Except.ok i => (Except.ok i, [Event.loadIndex])

/-- `load_embedding_model` (lines 51-52) via `load_pickle`. -/
def load_embedding_model (disk : Disk) : Except String EmbedModel × List Event :=
  match disk.embed with
  | Except.error e => (Except.error e, [])
  | Except.ok m => (Except.ok m, [Event.loadEmbeddingModel])

/-- `load_llm_config` (lines 55-59): `json.load` then the completion record;
the parsed document is returned with no key validation. -/
def load_llm_config (f : JsonFile) : Except String LLMConfigDoc × List Event :=
  match json_load f with
  | Except.error e => (Except.error e, [])
  | Except.ok cfg => (Except.ok cfg, [Event.loadLLMConfig])

/-- `load_model_and_tokenizer` at the disk level: either `from_pretrained`
call may raise; on success the pure core runs and the completion record is
emitted. -/
def load_model_and_tokenizer_disk (device : Device) (disk : Disk) :
    Except String (Model × Tokenizer) × List Event :=
  match disk.tokArt with
  | Except.error e => (Except.error e, [])
  | Except.ok tokArt =>
    match disk.modArt with
    | Except.error e => (Except.error e, [])
    | Except.ok modArt =>
      (Except.ok (load_model_and_tokenizer device tokArt modArt),
       [Event.loadModelAndTokenizer])

/-- `initialize_llm` with its completion record (emitted only when every
config key read succeeds). -/
def initialize_llm (cfg : LLMConfigDoc) (model : Model) (tokenizer : Tokenizer) :
    Except String Engine × List Event :=
  match initialize_llm_core cfg model tokenizer with
  | Except.error e => (Except.error e, [])
  | Except.ok eng => (Except.ok eng, [Event.buildEngine])

/-- A value stored in the dict `initialize_all` returns. -/
inductive BundleVal where
  | idx (i : Index)
  | mdl (m : Model)
  | tok (t : Tokenizer)
  | engine (e : Engine)
  | emb (e : EmbedModel)
  | cfg (c : LLMConfigDoc)

/-- The Python dict returned by `initialize_all`, as an association list. -/
abbrev Bundle := List (String × BundleVal)

/-- Whether a dict value is an embedding-model handle. -/
def is_emb : BundleVal → Bool
  | BundleVal.emb _ => true
  | _ => false

/-- Whether a dict value is a generation-config document. -/
def is_cfg : BundleVal → Bool
  | BundleVal.cfg _ => true
  | _ => false

/-- `initialize_all` (lines 148-162): load index, load model+tokenizer, load
embedding model, load config, build engine, register globals, then return
the dict `{"index": ..., "model": ..., "tokenizer": ..., "llm": ...}`.
Any step's exception propagates (nothing is caught here); the emitted
records accumulate in call order. -/
def initialize_all (device : Device) (disk : Disk) (s : Settings) :
    Except String (Bundle × Settings) × List Event :=
  let (r1, l1) := load_index disk
  match r1 with
  | Except.error e => (Except.error e, l1)
  | Except.ok index =>
    let (r2, l2) := load_model_and_tokenizer_disk device disk
    match r2 with
    | Except.error e => (Except.error e, l1 ++ l2)
    | Except.ok (model, tokenizer) =>
      let (r3, l3) := load_embedding_model disk
      match r3 with
      | Except.error e => (Except.error e, l1 ++ l2 ++ l3)
      | Except.ok embed_model =>
        let (r4, l4) := load_llm_config disk.configFile
        match r4 with
        | Except.error e => (Except.error e, l1 ++ l2 ++ l3 ++ l4)
        | Except.ok llm_config =>
          let (r5, l5) := initialize_llm llm_config model tokenizer
          match r5 with
          | Except.error e => (Except.error e, l1 ++ l2 ++ l3 ++ l4 ++ l5)
          | Except.ok llm =>
            let s2 := configure_settings embed_model llm s
            (Except.ok
              ([("index", BundleVal.idx index),
                ("model", BundleVal.mdl model),
                ("tokenizer", BundleVal.tok tokenizer),
                ("llm", BundleVal.engine llm)], s2),
             l1 ++ l2 ++ l3 ++ l4 ++ l5 ++ [Event.registerGlobals])

/-- The module-level run (lines 24 and 168): `DEVICE = get_device()` with its
log record, immediately followed by `STATE = initialize_all()`. -/
def module_init (env : Env) (disk : Disk) (s : Settings) :
    Except String (Bundle × Settings) × List Event :=
  let device := get_device env
  let (r, l) := initialize_all device disk s
  (r, Event.resolveDevice device :: l)

/-- The process-wide loaded state after initialization: the `Settings`
singleton and the module globals `STATE`, `MODEL`, `TOKENIZER`. -/
structure ProcState where
  settings : Settings
  state_dict : Bundle
  model_g : Model
  tokenizer_g : Tokenizer

/-- `generate_response` viewed against the process-wide state: the function
body (lines 110-142) contains no assignment to any module global or to
`Settings`, so the state threads through unchanged. -/
def generate_response_st (ps : ProcState) (model : Model) (tokenizer : Tokenizer)
    (prompt : Str) (max_tokens : Nat := 50) : Option Str × ProcState :=
  (generate_response model tokenizer prompt max_tokens, ps)

/-! Concrete sample artifacts used to instantiate the theorems below. -/

/-- A well-formed sample tokenizer. -/
def dummyTok : Tokenizer :=
  { pad_token := some "<pad>"
  , eos_token := some "<eos>"
  , eos_token_id := some 0
  , tokenize := fun _ => Except.ok [1]
  , decode := fun _ _ => Except.ok "ok".data }

/-- A tokenizer whose tokenization call always raises. -/
def throwTok : Tokenizer :=
  { pad_token := some "<pad>"
  , eos_token := some "<eos>"
  , eos_token_id := some 0
  , tokenize := fun _ => Except.error "tokenization failed"
  , decode := fun _ _ => Except.ok "ok".data }

/-- A tokenizer artifact with neither a pad token nor an eos token. -/
def noPadNoEosTok : Tokenizer :=
  { pad_token := none
  , eos_token := none
  , eos_token_id := none
  , tokenize := fun _ => Except.ok [1]
  , decode := fun _ _ => Except.ok "ok".data }

/-- A sample causal-LM artifact (appends one token to its input). -/
def dummyArt : ModelArtifact :=
  { gen := fun ids _ _ => Except.ok (ids ++ [2])
  , training := true }

/-- A sample live model. -/
def dummyModel : Model :=
  { dtype := Dtype.float32
  , device := Device.cpu
  , training := false
  , gen := fun ids _ _ => Except.ok (ids ++ [2]) }

/-- A tokenizer whose decode of the freshly generated span happens to start
with the literal prompt string used below. -/
def echoTok : Tokenizer :=
  { pad_token := some "<pad>"
  , eos_token := some "<eos>"
  , eos_token_id := some 0
  , tokenize := fun _ => Except.ok [1]
  , decode := fun _ _ => Except.ok "What is X? Good question.".data }

/-- A complete sample generation-config document. -/
def fullDoc : LLMConfigDoc :=
  { context_window := some 2048
  , max_new_tokens := some 256
  , generate_kwargs := some ⟨0⟩
  , system_prompt := some "You are a helpful assistant." }

/-- A sample config document missing only `max_new_tokens`. -/
def missingMNTDoc : LLMConfigDoc :=
  { context_window := some 2048
  , max_new_tokens := none
  , generate_kwargs := some ⟨0⟩
  , system_prompt := some "You are a helpful assistant." }

/-- Fresh settings singleton (nothing published yet). -/
def s0 : Settings :=
  { embed_model := none, llm := none, chunk_size := none }

/-- A fully healthy artifact directory. -/
def okDisk : Disk :=
  { index := Except.ok ⟨7⟩
  , tokArt := Except.ok dummyTok
  , modArt := Except.ok dummyArt
  , embed := Except.ok ⟨3⟩
  , configFile := JsonFile.doc fullDoc }

/-- A healthy artifact directory whose config JSON lacks `max_new_tokens`. -/
def missingMNTDisk : Disk :=
  { index := Except.ok ⟨7⟩
  , tokArt := Except.ok dummyTok
  , modArt := Except.ok dummyArt
  , embed := Except.ok ⟨3⟩
  , configFile := JsonFile.doc missingMNTDoc }

/-! Claim theorems. -/

/-- Claim C3: `get_device` is deterministic in the reported environment and
follows the priority order CUDA, then MPS, then CPU; the CPU branch is a
total fallback, so resolution never fails. -/
theorem C3_get_device_priority (env : Env) :
    (env.cuda_is_available = true → get_device env = Device.cuda) ∧
    (env.cuda_is_available = false → env.mps_is_available = true →
      get_device env = Device.mps) ∧
    (env.cuda_is_available = false → env.mps_is_available = false →
      get_device env = Device.cpu) := by
  refine ⟨fun h => ?_, fun h1 h2 => ?_, fun h1 h2 => ?_⟩
  · simp [get_device, h]
  · simp [get_device, h1, h2]
  · simp [get_device, h1, h2]

/-- Witness for C3 at the three concrete environments. -/
theorem C3_get_device_priority_witness :
    get_device ⟨true, true⟩ = Device.cuda ∧
    get_device ⟨false, true⟩ = Device.mps ∧
    get_device ⟨false, false⟩ = Device.cpu :=
  ⟨(C3_get_device_priority ⟨true, true⟩).1 rfl,
   (C3_get_device_priority ⟨false, true⟩).2.1 rfl rfl,
   (C3_get_device_priority ⟨false, false⟩).2.2 rfl rfl⟩

/-- Claim C1: `generate_response` catches every exception raised during
tokenization, generation, or decoding and returns `none` in each case; it
always terminates with either `none` or a string, never an uncaught
exception, and in particular a prompt whose tokenization throws yields
`none` on every call with that prompt and configuration. -/
theorem C1_generate_response_catches (model : Model) (tokenizer : Tokenizer)
    (prompt : Str) (mt : Nat) :
    (∀ e, tokenizer.tokenize prompt = Except.error e →
      generate_response model tokenizer prompt mt = none) ∧
    (∀ ids e, tokenizer.tokenize prompt = Except.ok ids →
      model.gen ids mt tokenizer.eos_token_id = Except.error e →
      generate_response model tokenizer prompt mt = none) ∧
    (∀ ids out e, tokenizer.tokenize prompt = Except.ok ids →
      model.gen ids mt tokenizer.eos_token_id = Except.ok out →
      tokenizer.decode (out.drop ids.length) true = Except.error e →
      generate_response model tokenizer prompt mt = none) ∧
    (generate_response model tokenizer prompt mt = none ∨
      ∃ s, generate_response model tokenizer prompt mt = some s) := by
  refine ⟨fun e h1 => ?_, fun ids e h1 h2 => ?_, fun ids out e h1 h2 h3 => ?_, ?_⟩
  · simp [generate_response, h1]
  · simp [generate_response, h1, h2]
  · simp [generate_response, h1, h2, h3]
  · rcases h1 : tokenizer.tokenize prompt with e | ids
    · exact Or.inl (by simp [generate_response, h1])
    rcases h2 : model.gen ids mt tokenizer.eos_token_id with e | out
    · exact Or.inl (by simp [generate_response, h1, h2])
    rcases h3 : tokenizer.decode (out.drop ids.length) true with e | r
    · exact Or.inl (by simp [generate_response, h1, h2, h3])
    · exact Or.inr ⟨pyStrip r, by simp [generate_response, h1, h2, h3]⟩

/-- Witness for C1: a tokenizer that always throws makes `generate_response`
return `none`. -/
theorem C1_generate_response_catches_witness :
    generate_response dummyModel throwTok "any prompt".data 50 = none :=
  (C1_generate_response_catches dummyModel throwTok "any prompt".data 50).1
    "tokenization failed" rfl

/-- Counterexample for C2: a tokenizer artifact with neither a pad token
nor an eos token still has no pad token after loading, so a loaded
tokenizer does not always expose a valid pad token. -/
theorem C2_counterexample :
    noPadNoEosTok.pad_token = none ∧
    (load_model_and_tokenizer Device.cpu noPadNoEosTok dummyArt).2.pad_token
      = none :=
  ⟨rfl, rfl⟩

/-- Claim C2, amended: after loading, a tokenizer that lacked a pad token
has its pad token set to its eos token (and one that had a pad token keeps
it); consequently the loaded tokenizer exposes a valid pad token whenever
the artifact had a pad token or an eos token — but not when it had
neither. -/
theorem C2_pad_token_invariant (device : Device) (tokArt : Tokenizer)
    (modArt : ModelArtifact) :
    (tokArt.pad_token = none →
      (load_model_and_tokenizer device tokArt modArt).2.pad_token
        = tokArt.eos_token) ∧
    (tokArt.pad_token ≠ none →
      (load_model_and_tokenizer device tokArt modArt).2.pad_token
        = tokArt.pad_token) ∧
    (tokArt.pad_token.isSome = true ∨ tokArt.eos_token.isSome = true →
      (load_model_and_tokenizer device tokArt modArt).2.pad_token.isSome
        = true) := by
  refine ⟨fun h => ?_, fun h => ?_, fun h => ?_⟩
  · simp [load_model_and_tokenizer, h]
  · simp [load_model_and_tokenizer, h]
  · rcases h with h | h
    · rcases hp : tokArt.pad_token with _ | p
      · rw [hp] at h; simp at h
      · simp [load_model_and_tokenizer, hp]
    · rcases hp : tokArt.pad_token with _ | p <;>
        simp [load_model_and_tokenizer, hp, h]

/-- Witness for C2's amended theorem at a concrete pad-less tokenizer. -/
theorem C2_pad_token_invariant_witness :
    (load_model_and_tokenizer Device.cpu
      { pad_token := none
      , eos_token := some "<eos>"
      , eos_token_id := some 0
      , tokenize := fun _ => Except.ok [1]
      , decode := fun _ _ => Except.ok "ok".data } dummyArt).2.pad_token
      = some "<eos>" :=
  (C2_pad_token_invariant Device.cpu _ dummyArt).1 rfl

/-- Claim C10: `configure_settings` publishes the embedding model and the
engine as the process-wide defaults and sets the chunk size to exactly
1024, whatever the settings held before. -/
theorem C10_configure_settings_fields (em : EmbedModel) (llm : Engine)
    (s : Settings) :
    (configure_settings em llm s).chunk_size = some 1024 ∧
    (configure_settings em llm s).embed_model = some em ∧
    (configure_settings em llm s).llm = some llm :=
  ⟨rfl, rfl, rfl⟩

/-- Claim C7: the loaded model's dtype is float16 exactly when the backend
is not the CPU and float32 exactly when it is; the model is placed on the
resolved backend and left in inference (non-training) mode. -/
theorem C7_precision_placement_eval (device : Device) (tokArt : Tokenizer)
    (modArt : ModelArtifact) :
    ((load_model_and_tokenizer device tokArt modArt).1.dtype = Dtype.float16
      ↔ device ≠ Device.cpu) ∧
    ((load_model_and_tokenizer device tokArt modArt).1.dtype = Dtype.float32
      ↔ device = Device.cpu) ∧
    (load_model_and_tokenizer device tokArt modArt).1.device = device ∧
    (load_model_and_tokenizer device tokArt modArt).1.training = false := by
  rcases device <;>
    simp [load_model_and_tokenizer, from_pretrained_model, Model.to_device,
      Model.eval]

/-- Witness for C7 on the CUDA and CPU backends. -/
theorem C7_precision_placement_eval_witness :
    (load_model_and_tokenizer Device.cuda dummyTok dummyArt).1.dtype
      = Dtype.float16 ∧
    (load_model_and_tokenizer Device.cpu dummyTok dummyArt).1.dtype
      = Dtype.float32 :=
  ⟨(C7_precision_placement_eval Device.cuda dummyTok dummyArt).1.mpr
     (by decide),
   (C7_precision_placement_eval Device.cpu dummyTok dummyArt).2.1.mpr rfl⟩

/-- Claim C9: a `generate_response` call, failing or not, leaves the
process-wide loaded state — the settings singleton and the `STATE`,
`MODEL`, `TOKENIZER` globals — exactly as it found it; the theorem holds
for every input, hence in particular for calls that return `none`. -/
theorem C9_generate_response_frame (ps : ProcState) (model : Model)
    (tokenizer : Tokenizer) (prompt : Str) (mt : Nat) :
    (generate_response_st ps model tokenizer prompt mt).2 = ps ∧
    (generate_response_st ps model tokenizer prompt mt).2.settings
      = ps.settings ∧
    (generate_response_st ps model tokenizer prompt mt).2.state_dict
      = ps.state_dict ∧
    (generate_response_st ps model tokenizer prompt mt).2.model_g
      = ps.model_g ∧
    (generate_response_st ps model tokenizer prompt mt).2.tokenizer_g
      = ps.tokenizer_g :=
  ⟨rfl, rfl, rfl, rfl, rfl⟩

/-- Counterexample for C4: the decoded new-token span can itself begin with
the literal prompt — here the successful call returns a string that has the
input prompt as a prefix, so "never contains the literal input prompt as a
prefix" is false. -/
theorem C4_counterexample :
    generate_response dummyModel echoTok "What is X?".data 10
      = some "What is X? Good question.".data ∧
    ("What is X? Good question.".data).take ("What is X?".data).length
      = "What is X?".data := by
  exact ⟨by decide, by decide⟩

/-- Claim C4, amended: on every successful call, `generate_response` decodes
only the token span of the output beyond the original input length and
returns that decode stripped of surrounding whitespace — the echoed prompt
token span is never decoded, although the decoded new text may itself
coincide with the prompt. -/
theorem C4_decode_only_new_span (model : Model) (tokenizer : Tokenizer)
    (prompt : Str) (mt : Nat) (ids out : List Nat) (s : Str)
    (h1 : tokenizer.tokenize prompt = Except.ok ids)
    (h2 : model.gen ids mt tokenizer.eos_token_id = Except.ok out)
    (h3 : tokenizer.decode (out.drop ids.length) true = Except.ok s) :
    generate_response model tokenizer prompt mt = some (pyStrip s) := by
  simp [generate_response, h1, h2, h3]

/-- Witness for C4's amended theorem at a concrete model and tokenizer. -/
theorem C4_decode_only_new_span_witness :
    generate_response dummyModel dummyTok "hello".data 5
      = some (pyStrip "ok".data) :=
  C4_decode_only_new_span dummyModel dummyTok "hello".data 5 [1] [1, 2]
    "ok".data rfl rfl rfl

/-- Claim C5: whenever the module-level initialization succeeds, its
observability trace is exactly resolve-device, load-index,
load-model-and-tokenizer, load-embedding-model, load-config, build-engine,
register-globals, in that order; and the register-globals step occurs in
the trace only when the whole pipeline succeeded, so a partial bundle is
never published. -/
theorem C5_pipeline_order (env : Env) (disk : Disk) (s : Settings) :
    (∀ r, (module_init env disk s).1 = Except.ok r →
      (module_init env disk s).2 =
        [Event.resolveDevice (get_device env), Event.loadIndex,
         Event.loadModelAndTokenizer, Event.loadEmbeddingModel,
         Event.loadLLMConfig, Event.buildEngine, Event.registerGlobals]) ∧
    (Event.registerGlobals ∈ (module_init env disk s).2 →
      ∃ r, (module_init env disk s).1 = Except.ok r) := by
  obtain ⟨di, dt, dm, de, dc⟩ := disk
  rcases di with e1 | i <;> rcases dt with e2 | tokArt <;>
    rcases dm with e3 | modArt <;> rcases de with e4 | em <;>
    rcases dc with msg | cfgdoc <;>
    (try obtain ⟨cw, mnt, gk, sp⟩ := cfgdoc) <;>
    (try rcases cw with _ | cw) <;> (try rcases mnt with _ | mnt) <;>
    (try rcases gk with _ | gk) <;> (try rcases sp with _ | sp) <;>
    simp [module_init, initialize_all, load_index,
      load_model_and_tokenizer_disk, load_embedding_model, load_llm_config,
      json_load, initialize_llm, initialize_llm_core, dict_get]

/-- Witness for C5 at a healthy artifact directory: both conjuncts applied
at the concrete run. -/
theorem C5_pipeline_order_witness :
    (module_init ⟨true, false⟩ okDisk s0).2 =
      [Event.resolveDevice Device.cuda, Event.loadIndex,
       Event.loadModelAndTokenizer, Event.loadEmbeddingModel,
       Event.loadLLMConfig, Event.buildEngine, Event.registerGlobals] ∧
    (∃ r, (module_init ⟨true, false⟩ okDisk s0).1 = Except.ok r) := by
  have h := C5_pipeline_order ⟨true, false⟩ okDisk s0
  have h2 := h.2 (by decide)
  obtain ⟨r, hr⟩ := h2
  exact ⟨h.1 r hr, ⟨r, hr⟩⟩

/-- Counterexample for C6: `load_llm_config` on a well-formed JSON document
missing `max_new_tokens` succeeds and returns the document unvalidated —
it does not fail. -/
theorem C6_counterexample :
    (load_llm_config (JsonFile.doc missingMNTDoc)).1
      = Except.ok missingMNTDoc ∧
    missingMNTDoc.max_new_tokens = none :=
  ⟨rfl, rfl⟩

/-- Claim C6, amended: a config document missing `max_new_tokens` is still a
startup-fatal error, but the error is raised by `initialize_llm` when it
reads the key, not by `load_llm_config` (which only fails on unreadable or
malformed JSON); `initialize_all` propagates the error, so startup aborts
rather than silently defaulting. -/
theorem C6_missing_max_new_tokens_fatal (cfg : LLMConfigDoc) (model : Model)
    (tokenizer : Tokenizer) (device : Device) (disk : Disk) (s : Settings)
    (h : cfg.max_new_tokens = none) :
    (∃ e, (initialize_llm cfg model tokenizer).1 = Except.error e) ∧
    ((load_llm_config disk.configFile).1 = Except.ok cfg →
      ∃ e, (initialize_all device disk s).1 = Except.error e) := by
  constructor
  · rcases hcw : cfg.context_window with _ | cw <;>
      simp [initialize_llm, initialize_llm_core, dict_get, hcw, h]
  · intro hload
    obtain ⟨di, dt, dm, de, dc⟩ := disk
    have hdc : dc = JsonFile.doc cfg := by
      rcases dc with msg | cfgdoc <;>
        simp [load_llm_config, json_load] at hload <;> simp [hload]
    subst hdc
    rcases di with e1 | i <;> rcases dt with e2 | tokArt <;>
      rcases dm with e3 | modArt <;> rcases de with e4 | em <;>
      rcases hcw : cfg.context_window with _ | cw <;>
      simp [initialize_all, load_index, load_model_and_tokenizer_disk,
        load_embedding_model, load_llm_config, json_load, initialize_llm,
        initialize_llm_core, dict_get, hcw, h]

/-- Witness for C6's amended theorem at a concrete artifact directory whose
config lacks `max_new_tokens`. -/
theorem C6_missing_max_new_tokens_fatal_witness :
    ∃ e, (initialize_all Device.cpu missingMNTDisk s0).1 = Except.error e :=
  (C6_missing_max_new_tokens_fatal missingMNTDoc dummyModel dummyTok
    Device.cpu missingMNTDisk s0 rfl).2 rfl

/-- Counterexample for C8: on a healthy artifact directory the dict returned
by `initialize_all` has exactly the keys index, model, tokenizer, llm, and
none of its values is the embedding model or the generation config — so
the bundle does not contain all five ArtifactBundle fields. -/
theorem C8_counterexample :
    ((initialize_all Device.cpu okDisk s0).1.toOption.map
        (fun r => (r.1.map Prod.fst,
          r.1.all (fun kv => !is_emb kv.2 && !is_cfg kv.2))))
      = some (["index", "model", "tokenizer", "llm"], true) := rfl

/-- Claim C8, amended: every successful `initialize_all` run returns a dict
holding exactly the index, the generation model, the tokenizer, and the
built engine; the embedding model and the generation config are not in the
returned bundle — the embedding model (and the engine) are published only
through the settings singleton, and the config only bound inside the
engine. -/
theorem C8_bundle_contents (device : Device) (disk : Disk) (s : Settings)
    (b : Bundle) (s2 : Settings)
    (h : (initialize_all device disk s).1 = Except.ok (b, s2)) :
    b.map Prod.fst = ["index", "model", "tokenizer", "llm"] ∧
    b.all (fun kv => !is_emb kv.2 && !is_cfg kv.2) = true ∧
    s2.embed_model.isSome = true ∧ s2.llm.isSome = true := by
  obtain ⟨di, dt, dm, de, dc⟩ := disk
  rcases di with e1 | i <;> rcases dt with e2 | tokArt <;>
    rcases dm with e3 | modArt <;> rcases de with e4 | em <;>
    rcases dc with msg | cfgdoc <;>
    (try obtain ⟨cw, mnt, gk, sp⟩ := cfgdoc) <;>
    (try rcases cw with _ | cw) <;> (try rcases mnt with _ | mnt) <;>
    (try rcases gk with _ | gk) <;> (try rcases sp with _ | sp) <;>
    simp [initialize_all, load_index, load_model_and_tokenizer_disk,
      load_embedding_model, load_llm_config, json_load, initialize_llm,
      initialize_llm_core, dict_get, configure_settings] at h <;>
    obtain ⟨hb, hs⟩ := h <;> subst hb <;> subst hs <;>
    simp [is_emb, is_cfg, configure_settings]

/-- The model loaded from `okDisk` on the CPU. -/
def modelW : Model := (load_model_and_tokenizer Device.cpu dummyTok dummyArt).1

/-- The tokenizer loaded from `okDisk` on the CPU. -/
def tokW : Tokenizer := (load_model_and_tokenizer Device.cpu dummyTok dummyArt).2

/-- The engine built from `okDisk`'s config, model and tokenizer. -/
def engW : Engine :=
  { context_window := 2048
  , max_new_tokens := 256
  , generate_kwargs := ⟨0⟩
  , system_prompt := "You are a helpful assistant."
  , query_wrapper_prompt := "<|USER|>{query_str}<|ASSISTANT|>"
  , model := modelW
  , tokenizer := tokW }

/-- The dict `initialize_all` returns on `okDisk`. -/
def bundleW : Bundle :=
  [("index", BundleVal.idx ⟨7⟩),
   ("model", BundleVal.mdl modelW),
   ("tokenizer", BundleVal.tok tokW),
   ("llm", BundleVal.engine engW)]

/-- The settings published by the `okDisk` run. -/
def settingsW : Settings :=
  { embed_model := some ⟨3⟩, llm := some engW, chunk_size := some 1024 }

/-- Witness for C8's amended theorem at the concrete `okDisk` run. -/
theorem C8_bundle_contents_witness :
    bundleW.map Prod.fst = ["index", "model", "tokenizer", "llm"] ∧
    bundleW.all (fun kv => !is_emb kv.2 && !is_cfg kv.2) = true ∧
    settingsW.embed_model.isSome = true ∧ settingsW.llm.isSome = true :=
  C8_bundle_contents Device.cpu okDisk s0 bundleW settingsW rfl

end RunModel
